import Mathlib

/-!
Verification of the reconciliation core of the `terraform-provider-railway`
repository, shallowly embedded in Lean 4.

Source files embedded here:
  * `internal/provider/resource_service_limits.go`
  * `internal/provider/resource_service_instance.go`
  * `internal/provider/resource_private_network.go`
  * `internal/provider/resource_private_network_endpoint.go`

Terraform framework values (`types.String`, `types.Float64`, `types.List`, ...)
are three-valued: null, unknown, or a concrete value; this is modelled by `TF`.
Go `float64` limit values are carried opaquely as `Rat` (the provider performs
no arithmetic on them, it only copies them onto the wire).  Remote GraphQL
calls are modelled by passing their result (an `Except`-wrapped value) as an
explicit argument to the embedded lifecycle function; the lifecycle function
returns the diagnostics it adds and the state write it performs.
-/

namespace Railway

/-- A Terraform attribute value: null, unknown, or a known value
(mirrors the tri-state of `terraform-plugin-framework` `attr.Value`). -/
inductive TF (α : Type) where
  | null
  | unknown
  | value (v : α)
deriving DecidableEq

/-- Accessor `IsNull()` of the framework value. -/
def TF.isNull {α : Type} : TF α → Bool
  | .null => true
  | _ => false

/-- Accessor `IsUnknown()` of the framework value. -/
def TF.isUnknown {α : Type} : TF α → Bool
  | .unknown => true
  | _ => false

/-- Accessors `ValueString()` / `ValueFloat64()` / `ValueInt64()` /
`ElementsAs`: the known value, or the given zero value when null or
unknown. -/
def TF.getD {α : Type} : TF α → α → α
  | .value v, _ => v
  | .null, d => d
  | .unknown, d => d

/-- Accessors `ValueStringPointer()` / `ValueBoolPointer()`: `nil` exactly
when the value is null; an unknown value yields a pointer to the zero
value. -/
def TF.ptr {α : Type} : TF α → α → Option α
  | .null, _ => none
  | .unknown, d => some d
  | .value v, _ => some v

/-- A `nil`-able response field to a framework value: a present pointer
becomes a known value, a `nil` pointer becomes null. -/
def optTF {α : Type} : Option α → TF α
  | some v => TF.value v
  | none => TF.null

/-- One entry of `resp.Diagnostics` as added by `AddError(summary, detail)`. -/
structure Diagnostic where
  summary : String
  detail : String
deriving DecidableEq

/-- The `AddError("Client Error", detail)` diagnostic every remote-error
branch adds. -/
def clientError (detail : String) : Diagnostic :=
  { summary := "Client Error", detail := detail }

/-- The observable outcome of a Create/Update/Delete lifecycle call: the
diagnostics added to the response and the state write performed (`none`
means `resp.State` was never set). -/
structure LifecycleResponse (σ : Type) where
  diagnostics : List Diagnostic
  newState : Option σ
deriving DecidableEq

/-- The observable outcome of a Read lifecycle call; `removed = true` models
a call to `resp.State.RemoveResource`. -/
structure ReadResponse (σ : Type) where
  diagnostics : List Diagnostic
  removed : Bool
  newState : Option σ
deriving DecidableEq

/-! ## Identity codec

`Create` of the service-limits and service-instance resources builds the
composite identifier with `fmt.Sprintf("%s:%s", serviceId, environmentId)`. -/

/-- The composite-identifier construction
`fmt.Sprintf("%s:%s", data.ServiceId.ValueString(), data.EnvironmentId.ValueString())`
from `ServiceLimitsResource.Create` / `ServiceInstanceResource.Create`. -/
def encodeId (serviceId environmentId : String) : String :=
  serviceId ++ ":" ++ environmentId

/-- Split a character list at the first occurrence of the `':'` delimiter. -/
def splitFirstColon : List Char → Option (List Char × List Char)
  | [] => none
  | c :: cs =>
      if c = ':' then some ([], cs)
      else (splitFirstColon cs).map (fun p => (c :: p.1, p.2))

/-- Modelled from the spec: the import-time splitting of a composite token
into `(service_id, environment_id)` is not present under `src/` (both
resources import via `ImportStatePassthroughID`, which stores the raw token);
per §4.1 the codec decodes a token by splitting it at the delimiter, failing
(`MalformedIdentity`, here `none`) when no delimiter is present. -/
def decodeId (token : String) : Option (String × String) :=
  (splitFirstColon token.data).map (fun p => (String.mk p.1, String.mk p.2))

/-! ## Private network resource (`resource_private_network.go`) -/

/-- Structure `PrivateNetworkResourceModel`. -/
structure PrivateNetworkResourceModel where
  id : TF String
  name : TF String
  projectId : TF String
  environmentId : TF String
  dnsName : TF String
  tags : TF (List String)
deriving DecidableEq

/-- One private network as returned by the Railway API (the payload of
`PrivateNetworkCreateOrGet` and of the `PrivateNetworks` listing). -/
structure NetworkInfo where
  publicId : String
  name : String
  projectId : String
  environmentId : String
  dnsName : String
  tags : List String
deriving DecidableEq

/-- Input structure `PrivateNetworkCreateOrGetInput` of the generated
GraphQL client. -/
structure PrivateNetworkCreateOrGetInput where
  name : String
  projectId : String
  environmentId : String
  tags : List String
deriving DecidableEq

/-- The schema-relevant flags of one declared attribute. -/
structure AttrSchema where
  attr : String
  required : Bool
  optional : Bool
  computed : Bool
  requiresReplace : Bool
deriving DecidableEq

/-- An attribute the practitioner can set in configuration. -/
def AttrSchema.configurable (a : AttrSchema) : Bool :=
  a.required || a.optional

/-- The attribute flags declared by `PrivateNetworkResource.Schema`: `id` and
`dns_name` computed, `name` / `project_id` / `environment_id` required with a
`RequiresReplace` plan modifier, `tags` optional with no plan modifier. -/
def privateNetworkSchemaAttrs : List AttrSchema :=
  [ { attr := "id", required := false, optional := false, computed := true,
      requiresReplace := false },
    { attr := "name", required := true, optional := false, computed := false,
      requiresReplace := true },
    { attr := "project_id", required := true, optional := false,
      computed := false, requiresReplace := true },
    { attr := "environment_id", required := true, optional := false,
      computed := false, requiresReplace := true },
    { attr := "dns_name", required := false, optional := false,
      computed := true, requiresReplace := false },
    { attr := "tags", required := false, optional := true, computed := false,
      requiresReplace := false } ]

/-- The tag-list construction at the top of `PrivateNetworkResource.Create`:
an explicit empty list when the attribute is null, otherwise its elements. -/
def privateNetworkTags (data : PrivateNetworkResourceModel) : List String :=
  if data.tags.isNull then [] else data.tags.getD []

/-- The `PrivateNetworkCreateOrGetInput` built by
`PrivateNetworkResource.Create`. -/
def privateNetworkCreateInput (data : PrivateNetworkResourceModel) :
    PrivateNetworkCreateOrGetInput :=
  { name := data.name.getD ("")
    projectId := data.projectId.getD ("")
    environmentId := data.environmentId.getD ("")
    tags := privateNetworkTags data }

/-- The state written by the success path of `PrivateNetworkResource.Create`:
`id` and `dns_name` from the response; `tags` overwritten from the response
only when the response's tag list is non-empty. -/
def privateNetworkApplyCreate (data : PrivateNetworkResourceModel)
    (network : NetworkInfo) : PrivateNetworkResourceModel :=
  { data with
    id := TF.value network.publicId
    dnsName := TF.value network.dnsName
    tags := if network.tags.length > 0 then TF.value network.tags else data.tags }

/-- Method `PrivateNetworkResource.Create` after a successful plan read: the
result of the `createOrGetPrivateNetwork` call on `privateNetworkCreateInput`
is the `remote` argument; an error is surfaced as a diagnostic with no state
write, a response refreshes state via `privateNetworkApplyCreate`. -/
def privateNetworkCreate (data : PrivateNetworkResourceModel)
    (remote : Except String NetworkInfo) :
    LifecycleResponse PrivateNetworkResourceModel :=
  match remote with
  | .error msg =>
      { diagnostics := [clientError ("Unable to create private network, got error: " ++ msg)],
        newState := none }
  | .ok network =>
      { diagnostics := []
        newState := some (privateNetworkApplyCreate data network) }

/-- The per-network state refresh inside the lookup loop of
`PrivateNetworkResource.Read`; `tags` is overwritten only when the listed
network's tag list is non-empty. -/
def privateNetworkApplyRead (data : PrivateNetworkResourceModel)
    (network : NetworkInfo) : PrivateNetworkResourceModel :=
  { data with
    name := TF.value network.name
    dnsName := TF.value network.dnsName
    projectId := TF.value network.projectId
    environmentId := TF.value network.environmentId
    tags := if network.tags.length > 0 then TF.value network.tags else data.tags }

/-- Method `PrivateNetworkResource.Read`: lists the environment's networks
(the `remote` argument), looks the stored `id` up among them, refreshes state
when found, and removes the resource from state when not found. -/
def privateNetworkRead (data : PrivateNetworkResourceModel)
    (remote : Except String (List NetworkInfo)) :
    ReadResponse PrivateNetworkResourceModel :=
  match remote with
  | .error msg =>
      { diagnostics := [clientError ("Unable to read private networks, got error: " ++ msg)],
        removed := false, newState := none }
  | .ok networks =>
      match networks.find? (fun n => n.publicId == data.id.getD ("")) with
      | some network =>
          { diagnostics := [], removed := false
            newState := some (privateNetworkApplyRead data network) }
      | none => { diagnostics := [], removed := true, newState := none }

/-- The `AddError("Update Not Supported", ...)` diagnostic of
`PrivateNetworkResource.Update`. -/
def updateNotSupportedPrivateNetwork : Diagnostic :=
  { summary := "Update Not Supported"
    detail := "Private networks cannot be updated. Changes require replacement." }

/-- Method `PrivateNetworkResource.Update`: unconditionally adds the
`Update Not Supported` error diagnostic and performs no state write. -/
def privateNetworkUpdate (_plan : PrivateNetworkResourceModel) :
    LifecycleResponse PrivateNetworkResourceModel :=
  { diagnostics := [updateNotSupportedPrivateNetwork]
    newState := none }

/-- The remote call issued by `PrivateNetworkResource.Delete`:
`deletePrivateNetworksForEnvironment` applied to the environment id alone. -/
def privateNetworkDeleteCall (data : PrivateNetworkResourceModel) : String :=
  data.environmentId.getD ("")

/-- Modelled from the spec: the remote `PrivateNetworkCreateOrGet` GraphQL
operation itself (server side, not part of this repository) — per §2 and
§4.3 a create-or-get keyed on the natural key
`(project_id, environment_id, name)`.  The remote environment holds the
existing networks and a fresh-id counter. -/
structure RemoteEnv where
  networks : List NetworkInfo
  nextId : Nat
deriving DecidableEq

/-- Whether a stored network matches the natural key of a create-or-get
input. -/
def natKeyMatches (inp : PrivateNetworkCreateOrGetInput) (n : NetworkInfo) : Bool :=
  n.projectId == inp.projectId && n.environmentId == inp.environmentId &&
    n.name == inp.name

/-- Modelled from the spec: the remote create-or-get returns the existing
network with the input's natural key unchanged, or creates a fresh one. -/
def remoteCreateOrGet (st : RemoteEnv) (inp : PrivateNetworkCreateOrGetInput) :
    RemoteEnv × NetworkInfo :=
  match st.networks.find? (natKeyMatches inp) with
  | some n => (st, n)
  | none =>
      let fresh : NetworkInfo :=
        { publicId := "pn-" ++ toString st.nextId
          name := inp.name
          projectId := inp.projectId
          environmentId := inp.environmentId
          dnsName := inp.name ++ ".railway.internal"
          tags := inp.tags }
      ({ networks := st.networks ++ [fresh], nextId := st.nextId + 1 }, fresh)

/-! ## Private network endpoint resource
(`resource_private_network_endpoint.go`) -/

/-- Structure `PrivateNetworkEndpointResourceModel`. -/
structure PrivateNetworkEndpointResourceModel where
  id : TF String
  privateNetworkId : TF String
  serviceId : TF String
  environmentId : TF String
  serviceName : TF String
  dnsName : TF String
  privateIps : TF (List String)
  tags : TF (List String)
deriving DecidableEq

/-- One endpoint of the `PrivateNetworkEndpoint` query response; the
generated client wraps every field in a pointer. -/
structure EndpointInfo where
  publicId : Option String
  dnsName : Option String
  privateIps : List (Option String)
  tags : List (Option String)
deriving DecidableEq

/-- Method `PrivateNetworkEndpointResource.Read`: queries the endpoint (the
`remote` argument); a `nil` endpoint removes the resource from state,
otherwise state is refreshed field by field (non-`nil` pointer fields win,
`private_ips` is nulled when empty, `tags` is overwritten only when
non-empty). -/
def privateNetworkEndpointRead (data : PrivateNetworkEndpointResourceModel)
    (remote : Except String (Option EndpointInfo)) :
    ReadResponse PrivateNetworkEndpointResourceModel :=
  match remote with
  | .error msg =>
      { diagnostics := [clientError ("Unable to read private network endpoint, got error: " ++ msg)],
        removed := false, newState := none }
  | .ok none => { diagnostics := [], removed := true, newState := none }
  | .ok (some endpoint) =>
      let d1 :=
        match endpoint.publicId with
        | some pid => { data with id := TF.value pid }
        | none => data
      let d2 :=
        match endpoint.dnsName with
        | some dns => { d1 with dnsName := TF.value dns }
        | none => d1
      let ips := if endpoint.privateIps.length > 0 then TF.value endpoint.privateIps.reduceOption else TF.null
      let d3 := { d2 with privateIps := ips }
      let tgs := if endpoint.tags.length > 0 then TF.value endpoint.tags.reduceOption else d3.tags
      let d4 := { d3 with tags := tgs }
      { diagnostics := [], removed := false, newState := some d4 }

/-! ## Service limits resource (`resource_service_limits.go`) -/

/-- Structure `ServiceLimitsResourceModel`; the `float64` limit values are
carried as `Rat`. -/
structure ServiceLimitsResourceModel where
  id : TF String
  serviceId : TF String
  environmentId : TF String
  memoryGB : TF Rat
  vcpus : TF Rat
deriving DecidableEq

/-- Input structure `ServiceInstanceLimitsUpdateInput` of the generated
client; Go pointer fields are `Option`s, the zero value is `nil`. -/
structure ServiceInstanceLimitsUpdateInput where
  serviceId : String
  environmentId : String
  memoryGB : Option Rat
  vcpus : Option Rat
deriving DecidableEq

/-- Method `ServiceLimitsResource.buildLimitsInput`: each limit is put on the
wire only when the model value is non-null. -/
def buildLimitsInput (data : ServiceLimitsResourceModel) :
    ServiceInstanceLimitsUpdateInput :=
  { serviceId := data.serviceId.getD ("")
    environmentId := data.environmentId.getD ("")
    memoryGB := if data.memoryGB.isNull then none else some (data.memoryGB.getD 0)
    vcpus := if data.vcpus.isNull then none else some (data.vcpus.getD 0) }

/-- Method `ServiceLimitsResource.Create` after a successful plan read: the
result of `updateServiceInstanceLimits` on `buildLimitsInput` is the `remote`
argument; on success the composite id is set and the state written. -/
def serviceLimitsCreate (data : ServiceLimitsResourceModel)
    (remote : Except String Unit) :
    LifecycleResponse ServiceLimitsResourceModel :=
  match remote with
  | .error msg =>
      { diagnostics := [clientError ("Unable to set service limits, got error: " ++ msg)],
        newState := none }
  | .ok _ =>
      { diagnostics := []
        newState := some { data with
          id := TF.value (encodeId (data.serviceId.getD (""))
            (data.environmentId.getD (""))) } }

/-- Method `ServiceLimitsResource.Read`: performs no remote call and writes
the prior state back verbatim (the limits are write-only). -/
def serviceLimitsRead (data : ServiceLimitsResourceModel) :
    LifecycleResponse ServiceLimitsResourceModel :=
  { diagnostics := [], newState := some data }

/-- Method `ServiceLimitsResource.Update`: reissues the limits update; an
error is surfaced as a diagnostic with no state write. -/
def serviceLimitsUpdate (data : ServiceLimitsResourceModel)
    (remote : Except String Unit) :
    LifecycleResponse ServiceLimitsResourceModel :=
  match remote with
  | .error msg =>
      { diagnostics := [clientError ("Unable to update service limits, got error: " ++ msg)],
        newState := none }
  | .ok _ => { diagnostics := [], newState := some data }

/-- Method `ServiceLimitsResource.Delete`: a no-op that only logs — no remote
call is issued and no diagnostic is added. -/
def serviceLimitsDelete (_data : ServiceLimitsResourceModel) : List Diagnostic :=
  []

/-! ## Service instance resource (`resource_service_instance.go`, full
schema variant) -/

/-- Structure `ServiceInstanceResourceModel`. -/
structure ServiceInstanceResourceModel where
  id : TF String
  serviceId : TF String
  environmentId : TF String
  sourceImage : TF String
  sourceRepo : TF String
  registryCredentialsUser : TF String
  registryCredentialsPass : TF String
  redeploy : TF Bool
  builder : TF String
  buildCommand : TF String
  startCommand : TF String
  preDeployCommand : TF (List String)
  healthcheckPath : TF String
  healthcheckTimeout : TF Int
  restartPolicyType : TF String
  restartPolicyMaxRetries : TF Int
  sleepApplication : TF Bool
deriving DecidableEq

/-- Input structure `ServiceSourceInput`. -/
structure ServiceSourceInput where
  image : Option String
  repo : Option String
deriving DecidableEq

/-- Input structure `RegistryCredentialsInput`. -/
structure RegistryCredentialsInput where
  username : String
  password : String
deriving DecidableEq

/-- Input structure `ServiceInstanceUpdateInput`; Go's zero value leaves
every field `nil`. -/
structure ServiceInstanceUpdateInput where
  source : Option ServiceSourceInput
  registryCredentials : Option RegistryCredentialsInput
  builder : Option String
  buildCommand : Option String
  startCommand : Option String
  preDeployCommand : Option (List String)
  healthcheckPath : Option String
  healthcheckTimeout : Option Int
  restartPolicyType : Option String
  restartPolicyMaxRetries : Option Int
  sleepApplication : Option Bool
deriving DecidableEq

/-- Method `ServiceInstanceResource.buildUpdateInput`: every attribute is
put on the wire only when the corresponding model field is non-null
(`source` when either source field is non-null, `registry credentials` when
both credential fields are non-null). -/
def buildUpdateInput (data : ServiceInstanceResourceModel) :
    ServiceInstanceUpdateInput :=
  { source :=
      if data.sourceImage.isNull && data.sourceRepo.isNull then none
      else some { image := data.sourceImage.ptr (""), repo := data.sourceRepo.ptr ("") }
    registryCredentials :=
      if !data.registryCredentialsUser.isNull && !data.registryCredentialsPass.isNull then
        some { username := data.registryCredentialsUser.getD ("")
               password := data.registryCredentialsPass.getD ("") }
      else none
    builder := if data.builder.isNull then none else some (data.builder.getD (""))
    buildCommand := data.buildCommand.ptr ("")
    startCommand := data.startCommand.ptr ("")
    preDeployCommand :=
      if data.preDeployCommand.isNull then none else some (data.preDeployCommand.getD [])
    healthcheckPath := data.healthcheckPath.ptr ("")
    healthcheckTimeout :=
      if data.healthcheckTimeout.isNull then none else some (data.healthcheckTimeout.getD 0)
    restartPolicyType :=
      if data.restartPolicyType.isNull then none else some (data.restartPolicyType.getD (""))
    restartPolicyMaxRetries :=
      if data.restartPolicyMaxRetries.isNull then none
      else some (data.restartPolicyMaxRetries.getD 0)
    sleepApplication := data.sleepApplication.ptr false }

/-- Source block of the `ServiceInstance` query response. -/
structure SourceInfo where
  image : Option String
  repo : Option String
deriving DecidableEq

/-- Payload of `getServiceInstanceForResource`. -/
structure ServiceInstanceInfo where
  source : Option SourceInfo
  builder : String
  buildCommand : Option String
  startCommand : Option String
  healthcheckPath : Option String
  healthcheckTimeout : Option Int
  restartPolicyType : String
  restartPolicyMaxRetries : Int
  sleepApplication : Option Bool
deriving DecidableEq

/-- Method `ServiceInstanceResource.readServiceInstance` after a successful
`getServiceInstanceForResource` call: every attribute is refreshed from the
observation except `pre_deploy_command`, which keeps the locally stored value
(it is only forced to null when it was unknown). -/
def readServiceInstance (data : ServiceInstanceResourceModel)
    (instanceInfo : ServiceInstanceInfo) : ServiceInstanceResourceModel :=
  let d1 :=
    match instanceInfo.source with
    | none => data
    | some src =>
        { data with sourceImage := optTF src.image, sourceRepo := optTF src.repo }
  { d1 with
    builder := TF.value instanceInfo.builder
    buildCommand := optTF instanceInfo.buildCommand
    startCommand := optTF instanceInfo.startCommand
    preDeployCommand :=
      if d1.preDeployCommand.isUnknown then TF.null else d1.preDeployCommand
    healthcheckPath := optTF instanceInfo.healthcheckPath
    healthcheckTimeout := optTF instanceInfo.healthcheckTimeout
    restartPolicyType := TF.value instanceInfo.restartPolicyType
    restartPolicyMaxRetries := TF.value instanceInfo.restartPolicyMaxRetries
    sleepApplication := optTF instanceInfo.sleepApplication }

/-- Method `ServiceInstanceResource.Delete`: a no-op that only logs — no
remote call is issued and no diagnostic is added. -/
def serviceInstanceDelete (_data : ServiceInstanceResourceModel) :
    List Diagnostic :=
  []

/-! ## Concrete sample values used by witnesses -/

/-- A sample service-limits model with both limits configured. -/
def slModel1 : ServiceLimitsResourceModel :=
  { id := TF.null
    serviceId := TF.value ("svc-1")
    environmentId := TF.value ("env-2")
    memoryGB := TF.value 2
    vcpus := TF.null }

/-- A sample service-instance model with every optional attribute null. -/
def siModel1 : ServiceInstanceResourceModel :=
  { id := TF.null
    serviceId := TF.value ("svc-1")
    environmentId := TF.value ("env-2")
    sourceImage := TF.null
    sourceRepo := TF.null
    registryCredentialsUser := TF.null
    registryCredentialsPass := TF.null
    redeploy := TF.value true
    builder := TF.null
    buildCommand := TF.null
    startCommand := TF.null
    preDeployCommand := TF.null
    healthcheckPath := TF.null
    healthcheckTimeout := TF.null
    restartPolicyType := TF.null
    restartPolicyMaxRetries := TF.null
    sleepApplication := TF.null }

/-- A sample private-network model holding a configured tag list. -/
def pnModel1 : PrivateNetworkResourceModel :=
  { id := TF.value ("net-1")
    name := TF.value ("internal")
    projectId := TF.value ("p1")
    environmentId := TF.value ("e1")
    dnsName := TF.null
    tags := TF.value [("production")] }

/-- A sample listed network whose id differs from `pnModel1`'s. -/
def netInfo2 : NetworkInfo :=
  { publicId := "net-9"
    name := "other"
    projectId := "p1"
    environmentId := "e1"
    dnsName := "other.railway.internal"
    tags := [] }

/-- A sample endpoint model. -/
def pneModel1 : PrivateNetworkEndpointResourceModel :=
  { id := TF.value ("ep-1")
    privateNetworkId := TF.value ("net-1")
    serviceId := TF.value ("svc-1")
    environmentId := TF.value ("e1")
    serviceName := TF.value ("api")
    dnsName := TF.null
    privateIps := TF.null
    tags := TF.null }

/-- A sample instance observation. -/
def siInfo1 : ServiceInstanceInfo :=
  { source := some { image := some "img:1", repo := none }
    builder := "NIXPACKS"
    buildCommand := none
    startCommand := some "npm start"
    healthcheckPath := none
    healthcheckTimeout := none
    restartPolicyType := "ALWAYS"
    restartPolicyMaxRetries := 0
    sleepApplication := none }

/-- A second, different sample instance observation. -/
def siInfo2 : ServiceInstanceInfo :=
  { source := none
    builder := "RAILPACK"
    buildCommand := some "make"
    startCommand := none
    healthcheckPath := some "/health"
    healthcheckTimeout := some 30
    restartPolicyType := "ON_FAILURE"
    restartPolicyMaxRetries := 3
    sleepApplication := some true }

/-! ## Theorems -/

theorem splitFirstColon_append (s e : List Char) (hs : ':' ∉ s) :
    splitFirstColon (s ++ ':' :: e) = some (s, e) := by
  induction s with
  | nil => simp [splitFirstColon]
  | cons c cs ih =>
      have hc : c ≠ ':' := by
        intro h; exact hs (by simp [h])
      have hcs : ':' ∉ cs := fun h => hs (List.mem_cons_of_mem _ h)
      simp [splitFirstColon, hc, ih hcs]

theorem encodeId_data (s e : String) :
    (encodeId s e).data = s.data ++ ':' :: e.data := by
  simp [encodeId, String.data_append]

theorem decodeId_encodeId (s e : String) (hs : ':' ∉ s.data) :
    decodeId (encodeId s e) = some (s, e) := by
  simp [decodeId, encodeId_data, splitFirstColon_append s.data e.data hs]

/-- C1 counterexample: over free-form component strings the composite codec
is not injective and does not round-trip — the distinct tuples
`("a:b", "c")` and `("a", "b:c")` encode to the same token `"a:b:c"`, and
decoding that token does not return `("a:b", "c")`. -/
theorem C1_encode_not_injective_cex :
    encodeId ("a:b") ("c") = encodeId ("a") ("b:c") ∧
    ¬ ((("a:b" : String), ("c" : String)) = (("a" : String), ("b:c" : String))) ∧
    ¬ (decodeId (encodeId ("a:b") ("c")) = some (("a:b", "c"))) :=
  ⟨by decide, by decide, by decide⟩

/-- C1 (amended): for component tuples whose first component does not contain
the `':'` delimiter — which the provider guarantees by validating
`service_id` against a UUID regex — `decodeId` inverts `encodeId` and
`encodeId` is injective. -/
theorem C1_codec_roundtrip_injective (s e s2 e2 : String)
    (hs : ':' ∉ s.data) (hs2 : ':' ∉ s2.data) :
    decodeId (encodeId s e) = some (s, e) ∧
    (encodeId s e = encodeId s2 e2 → s = s2 ∧ e = e2) := by
  refine ⟨decodeId_encodeId s e hs, fun h => ?_⟩
  have h1 : decodeId (encodeId s e) = decodeId (encodeId s2 e2) := by rw [h]
  rw [decodeId_encodeId s e hs, decodeId_encodeId s2 e2 hs2] at h1
  have h2 : (s, e) = (s2, e2) := Option.some.inj h1
  exact ⟨congrArg Prod.fst h2, congrArg Prod.snd h2⟩

/-- C1 witness: the amended round-trip and injectivity at concrete
identifier components. -/
theorem C1_codec_roundtrip_injective_witness :
    decodeId (encodeId ("svc-1") ("env-2")) = some (("svc-1", "env-2")) ∧
    (encodeId ("svc-1") ("env-2") = encodeId ("svc-1") ("env-2") →
      ("svc-1" : String) = ("svc-1") ∧ ("env-2" : String) = ("env-2")) :=
  C1_codec_roundtrip_injective ("svc-1") ("env-2") ("svc-1") ("env-2")
    (by decide) (by decide)

/-- C2 counterexample: not every configurable attribute of the private
network schema carries a requires-replace plan modifier — `tags` is
configurable (it is Optional) yet has no plan modifier. -/
theorem C2_tags_not_requires_replace_cex :
    ¬ (∀ a ∈ privateNetworkSchemaAttrs,
        a.configurable = true → a.requiresReplace = true) := by
  decide

/-- C2 (amended): every required attribute of the private network schema —
`name`, `project_id`, `environment_id` — carries the requires-replace plan
modifier, and every request reaching `PrivateNetworkResource.Update` gets
the `Update Not Supported` error diagnostic with no state write, so an
in-place update (of those immutable attributes, or of anything else) can
never succeed. -/
theorem C2_immutable_requires_replace_update_rejected :
    (∀ a ∈ privateNetworkSchemaAttrs, a.required = true → a.requiresReplace = true) ∧
    (∀ plan : PrivateNetworkResourceModel,
      (privateNetworkUpdate plan).newState = none ∧
      (privateNetworkUpdate plan).diagnostics = [updateNotSupportedPrivateNetwork]) :=
  ⟨by decide, fun _ => ⟨rfl, rfl⟩⟩

/-- C2 witness: the `name` attribute requires replacement, and a concrete
update request is rejected without a state write. -/
theorem C2_immutable_requires_replace_update_rejected_witness :
    ({ attr := "name", required := true, optional := false, computed := false, requiresReplace := true } : AttrSchema).requiresReplace = true ∧
    (privateNetworkUpdate pnModel1).newState = none := by
  constructor
  · exact C2_immutable_requires_replace_update_rejected.1 _ (by decide) rfl
  · exact (C2_immutable_requires_replace_update_rejected.2 pnModel1).1

/-- C3: a vanished resource is surfaced as removal, never as an error — when
the fresh listing does not contain the stored private network id, and when
the endpoint query returns `nil`, Read removes the resource from state and
adds no diagnostic. -/
theorem C3_vanished_is_removal (data : PrivateNetworkResourceModel)
    (networks : List NetworkInfo)
    (habs : ∀ n ∈ networks, ¬ n.publicId = data.id.getD (""))
    (edata : PrivateNetworkEndpointResourceModel) :
    privateNetworkRead data (Except.ok networks) =
      { diagnostics := [], removed := true, newState := none } ∧
    privateNetworkEndpointRead edata (Except.ok none) =
      { diagnostics := [], removed := true, newState := none } := by
  constructor
  · have hfind : networks.find? (fun n => n.publicId == data.id.getD ("")) = none := by
      rw [List.find?_eq_none]
      intro n hn
      simpa using habs n hn
    simp [privateNetworkRead, hfind]
  · rfl

/-- C3 witness: a stored network absent from a concrete listing, and a `nil`
endpoint response, both produce removal with no diagnostics. -/
theorem C3_vanished_is_removal_witness :
    privateNetworkRead pnModel1 (Except.ok [netInfo2]) =
      { diagnostics := [], removed := true, newState := none } ∧
    privateNetworkEndpointRead pneModel1 (Except.ok none) =
      { diagnostics := [], removed := true, newState := none } :=
  C3_vanished_is_removal pnModel1 [netInfo2] (by decide) pneModel1

theorem readServiceInstance_preDeployCommand (data : ServiceInstanceResourceModel)
    (info : ServiceInstanceInfo) :
    (readServiceInstance data info).preDeployCommand =
      (if data.preDeployCommand.isUnknown then TF.null else data.preDeployCommand) := by
  obtain ⟨src, b, bc, sc, hp, ht, rpt, rpm, sa⟩ := info
  cases src <;> rfl

/-- C4: write-only attributes are never compared against the remote
observation — `ServiceLimitsResource.Read` issues no remote call and writes
`memory_gb` and `vcpus` back exactly as stored, and `readServiceInstance`
carries the stored `pre_deploy_command` forward unchanged (its result does
not depend on the observation at all). -/
theorem C4_write_only_carried_forward
    (ldata : ServiceLimitsResourceModel)
    (sdata : ServiceInstanceResourceModel)
    (info1 info2 : ServiceInstanceInfo)
    (h : sdata.preDeployCommand.isUnknown = false) :
    serviceLimitsRead ldata = { diagnostics := [], newState := some ldata } ∧
    (readServiceInstance sdata info1).preDeployCommand = sdata.preDeployCommand ∧
    (readServiceInstance sdata info1).preDeployCommand =
      (readServiceInstance sdata info2).preDeployCommand := by
  refine ⟨rfl, ?_, ?_⟩
  · simp [readServiceInstance_preDeployCommand, h]
  · rw [readServiceInstance_preDeployCommand, readServiceInstance_preDeployCommand]

/-- C4 witness: concrete prior states under two different observations. -/
theorem C4_write_only_carried_forward_witness :
    serviceLimitsRead slModel1 = { diagnostics := [], newState := some slModel1 } ∧
    (readServiceInstance siModel1 siInfo1).preDeployCommand = siModel1.preDeployCommand ∧
    (readServiceInstance siModel1 siInfo1).preDeployCommand =
      (readServiceInstance siModel1 siInfo2).preDeployCommand :=
  C4_write_only_carried_forward slModel1 siModel1 siInfo1 siInfo2 rfl

/-- C5: delta-only update payloads with no zero-coercion of absent values —
`buildLimitsInput` puts each limit on the wire exactly when it is non-null
(and then with the configured value), and `buildUpdateInput` includes
`source`, `registry credentials` and each optional
build/healthcheck/restart/sleep field exactly when the corresponding model
field is non-null. -/
theorem C5_delta_only_payload (d : ServiceLimitsResourceModel)
    (s : ServiceInstanceResourceModel) (v w : Rat) :
    ((buildLimitsInput d).memoryGB = none ↔ d.memoryGB.isNull = true) ∧
    ((buildLimitsInput d).vcpus = none ↔ d.vcpus.isNull = true) ∧
    (d.memoryGB = TF.value v → (buildLimitsInput d).memoryGB = some v) ∧
    (d.vcpus = TF.value w → (buildLimitsInput d).vcpus = some w) ∧
    ((buildUpdateInput s).source = none ↔
      (s.sourceImage.isNull = true ∧ s.sourceRepo.isNull = true)) ∧
    ((buildUpdateInput s).registryCredentials = none ↔
      (s.registryCredentialsUser.isNull = true ∨ s.registryCredentialsPass.isNull = true)) ∧
    ((buildUpdateInput s).builder = none ↔ s.builder.isNull = true) ∧
    ((buildUpdateInput s).buildCommand = none ↔ s.buildCommand.isNull = true) ∧
    ((buildUpdateInput s).startCommand = none ↔ s.startCommand.isNull = true) ∧
    ((buildUpdateInput s).preDeployCommand = none ↔ s.preDeployCommand.isNull = true) ∧
    ((buildUpdateInput s).healthcheckPath = none ↔ s.healthcheckPath.isNull = true) ∧
    ((buildUpdateInput s).healthcheckTimeout = none ↔ s.healthcheckTimeout.isNull = true) ∧
    ((buildUpdateInput s).restartPolicyType = none ↔ s.restartPolicyType.isNull = true) ∧
    ((buildUpdateInput s).restartPolicyMaxRetries = none ↔
      s.restartPolicyMaxRetries.isNull = true) ∧
    ((buildUpdateInput s).sleepApplication = none ↔ s.sleepApplication.isNull = true) := by
  refine ⟨?_, ?_, ?_, ?_, ?_, ?_, ?_, ?_, ?_, ?_, ?_, ?_, ?_, ?_, ?_⟩
  · cases h : d.memoryGB <;> simp [buildLimitsInput, TF.isNull, h]
  · cases h : d.vcpus <;> simp [buildLimitsInput, TF.isNull, h]
  · intro h; simp [buildLimitsInput, TF.isNull, TF.getD, h]
  · intro h; simp [buildLimitsInput, TF.isNull, TF.getD, h]
  · cases hi : s.sourceImage <;> cases hr : s.sourceRepo <;>
      simp [buildUpdateInput, TF.isNull, hi, hr]
  · cases hu : s.registryCredentialsUser <;> cases hp : s.registryCredentialsPass <;>
      simp [buildUpdateInput, TF.isNull, hu, hp]
  · cases h : s.builder <;> simp [buildUpdateInput, TF.isNull, h]
  · cases h : s.buildCommand <;> simp [buildUpdateInput, TF.isNull, TF.ptr, h]
  · cases h : s.startCommand <;> simp [buildUpdateInput, TF.isNull, TF.ptr, h]
  · cases h : s.preDeployCommand <;> simp [buildUpdateInput, TF.isNull, h]
  · cases h : s.healthcheckPath <;> simp [buildUpdateInput, TF.isNull, TF.ptr, h]
  · cases h : s.healthcheckTimeout <;> simp [buildUpdateInput, TF.isNull, h]
  · cases h : s.restartPolicyType <;> simp [buildUpdateInput, TF.isNull, h]
  · cases h : s.restartPolicyMaxRetries <;> simp [buildUpdateInput, TF.isNull, h]
  · cases h : s.sleepApplication <;> simp [buildUpdateInput, TF.isNull, TF.ptr, h]

/-- C5 witness: the configured limit is sent verbatim, the absent limit and
the absent source block are omitted. -/
theorem C5_delta_only_payload_witness :
    (buildLimitsInput slModel1).memoryGB = some 2 ∧
    (buildLimitsInput slModel1).vcpus = none ∧
    (buildUpdateInput siModel1).source = none := by
  obtain ⟨h1, h2, h3, h4, h5, h6, h7, h8, h9, h10, h11, h12, h13, h14, h15⟩ :=
    C5_delta_only_payload slModel1 siModel1 2 2
  exact ⟨h3 rfl, h2.mpr rfl, h5.mpr ⟨rfl, rfl⟩⟩

/-- C6: atomicity on fault — when the remote call invoked by
`PrivateNetworkResource.Create` or `ServiceLimitsResource.Update` returns an
error, the operation surfaces exactly the client-error diagnostic and
performs no state write. -/
theorem C6_fault_leaves_state_untouched (pdata : PrivateNetworkResourceModel)
    (ldata : ServiceLimitsResourceModel) (msg : String) :
    (privateNetworkCreate pdata (Except.error msg)).newState = none ∧
    (privateNetworkCreate pdata (Except.error msg)).diagnostics =
      [clientError ("Unable to create private network, got error: " ++ msg)] ∧
    (serviceLimitsUpdate ldata (Except.error msg)).newState = none ∧
    (serviceLimitsUpdate ldata (Except.error msg)).diagnostics =
      [clientError ("Unable to update service limits, got error: " ++ msg)] :=
  ⟨rfl, rfl, rfl, rfl⟩

/-- C7 counterexample: deleting service limits or a service instance does
not fail with NotSupported — at concrete states both Delete operations add
no diagnostic at all, so the operation succeeds. -/
theorem C7_delete_does_not_fail_cex :
    serviceLimitsDelete slModel1 = [] ∧ serviceInstanceDelete siModel1 = [] :=
  ⟨rfl, rfl⟩

/-- C7 (amended): for the kinds with no remote deletion operation (service
limits, service instance), Delete is a no-op that issues no remote call and
adds no diagnostic — the `unsupported (no-op, log only)` strategy — rather
than failing with NotSupported. -/
theorem C7_delete_noop_strategy (d : ServiceLimitsResourceModel)
    (s : ServiceInstanceResourceModel) :
    serviceLimitsDelete d = [] ∧ serviceInstanceDelete s = [] :=
  ⟨rfl, rfl⟩

/-- C8: coarse, parent-scoped deletion — the remote deletion call issued by
`PrivateNetworkResource.Delete` is exactly the environment id (the parent
identity), and in particular is unchanged under any change of the resource's
own `id` or `name`. -/
theorem C8_delete_is_coarse_parent_scoped :
    (∀ data : PrivateNetworkResourceModel,
      privateNetworkDeleteCall data = data.environmentId.getD ("")) ∧
    (∀ (data : PrivateNetworkResourceModel) (idv namev : TF String),
      privateNetworkDeleteCall { data with id := idv, name := namev } =
        privateNetworkDeleteCall data) :=
  ⟨fun _ => rfl, fun _ _ _ => rfl⟩

theorem natKeyMatches_ext (i1 i2 : PrivateNetworkCreateOrGetInput)
    (hp : i1.projectId = i2.projectId) (he : i1.environmentId = i2.environmentId)
    (hn : i1.name = i2.name) : natKeyMatches i1 = natKeyMatches i2 := by
  funext n
  simp [natKeyMatches, hp, he, hn]

/-- C9: create-or-get convergence — two create-or-get invocations with
equivalent natural keys (same project, environment and name), interleaved in
either order against the remote create-or-get, return the same network
identity. -/
theorem C9_create_or_get_converges (st : RemoteEnv)
    (d1 d2 : PrivateNetworkResourceModel)
    (hp : d1.projectId.getD ("") = d2.projectId.getD (""))
    (he : d1.environmentId.getD ("") = d2.environmentId.getD (""))
    (hn : d1.name.getD ("") = d2.name.getD ("")) :
    (remoteCreateOrGet (remoteCreateOrGet st (privateNetworkCreateInput d1)).1
        (privateNetworkCreateInput d2)).2.publicId
      = (remoteCreateOrGet st (privateNetworkCreateInput d1)).2.publicId := by
  have hkey : natKeyMatches (privateNetworkCreateInput d2) =
      natKeyMatches (privateNetworkCreateInput d1) :=
    natKeyMatches_ext _ _ (by simp [privateNetworkCreateInput, hp])
      (by simp [privateNetworkCreateInput, he])
      (by simp [privateNetworkCreateInput, hn])
  cases hfind : st.networks.find? (natKeyMatches (privateNetworkCreateInput d1)) with
  | some n => simp [remoteCreateOrGet, hfind, hkey]
  | none => simp [remoteCreateOrGet, hfind, hkey, List.find?_append, natKeyMatches]

/-- C9 witness: two equal-keyed invocations against an empty remote
environment yield the same identity. -/
theorem C9_create_or_get_converges_witness :
    (remoteCreateOrGet (remoteCreateOrGet ⟨[], 0⟩ (privateNetworkCreateInput pnModel1)).1
        (privateNetworkCreateInput pnModel1)).2.publicId
      = (remoteCreateOrGet ⟨[], 0⟩ (privateNetworkCreateInput pnModel1)).2.publicId :=
  C9_create_or_get_converges ⟨[], 0⟩ pnModel1 pnModel1 rfl rfl rfl

/-- C10: an observed empty tag list never clears locally stored tags — in
the private network Create and Read state refreshes, a response with zero
tags leaves the previously held `tags` value unchanged. -/
theorem C10_empty_observed_tags_preserved (data : PrivateNetworkResourceModel)
    (network : NetworkInfo) (h : network.tags = []) :
    (privateNetworkApplyCreate data network).tags = data.tags ∧
    (privateNetworkApplyRead data network).tags = data.tags ∧
    privateNetworkCreate data (Except.ok network) =
      { diagnostics := [], newState := some (privateNetworkApplyCreate data network) } := by
  refine ⟨?_, ?_, rfl⟩ <;> simp [privateNetworkApplyCreate, privateNetworkApplyRead, h]

/-- C10 witness: a concrete prior state with configured tags and a concrete
zero-tag response. -/
theorem C10_empty_observed_tags_preserved_witness :
    (privateNetworkApplyCreate pnModel1 netInfo2).tags = pnModel1.tags ∧
    (privateNetworkApplyRead pnModel1 netInfo2).tags = pnModel1.tags ∧
    privateNetworkCreate pnModel1 (Except.ok netInfo2) =
      { diagnostics := [], newState := some (privateNetworkApplyCreate pnModel1 netInfo2) } :=
  C10_empty_observed_tags_preserved pnModel1 netInfo2 rfl

end Railway
